import Mathlib

/-!
Verification of `crtsh_csv_to_nslookup.py`: a shallow embedding of the
script's loader, resolver and reporter, with theorems checking the
specification's claims against it.

Modelling conventions:
* Python strings are Lean `String`s; `str.strip()` is `pyStrip`, which drops
  leading and trailing whitespace characters (`Char.isWhitespace` models
  Python's whitespace class).
* The CSV file is taken at the parsed level (`csv.DictReader`): a header
  `fieldnames` and a list of rows, each row an association list from column
  name to cell text; `rowGet` is `row.get(col, "")`.
* The external subprocess is an environment oracle `ProcOutcome`: the call in
  `run_query` either completes with a return code, stdout and stderr, raises
  `subprocess.TimeoutExpired`, or raises some other exception.
* `run_query` returns `Except String _`: the `.error` case models an
  exception escaping `run_query` itself (only `make_nslookup_cmd`'s
  `ValueError` sits outside its `try`), which `main`'s loop catches.
* `main` is a function of the parsed CSV, the CLI strings and the oracles
  (timestamp, one outcome per submitted task, the completion order in which
  `as_completed` yields the futures — a permutation of the task indices).
  Its effects are reified in `MainResult`: the message printed, the exit
  code, and the full text written to the output file, if any.
-/

set_option maxRecDepth 16384

namespace Crtsh

/-- A parsed CSV row, as `csv.DictReader` yields it: column name to cell. -/
def Row : Type := List (String × String)

/-- The parsed CSV file: header fieldnames and the data rows. -/
structure CSVData where
  fieldnames : List String
  rows : List Row

/-- `row.get(col, "")` on a `DictReader` row. -/
def rowGet (row : Row) (col : String) : String :=
  (List.lookup col row).getD ""

/-- Python `str.strip()`: drop leading and trailing whitespace. -/
def pyStrip (s : String) : String :=
  ⟨((s.data.dropWhile Char.isWhitespace).reverse.dropWhile Char.isWhitespace).reverse⟩

/-- Python `repr` of a string, as `f"{list_of_str}"` renders each element
(quote characters inside the string itself are not modelled). -/
def pyStrRepr (s : String) : String :=
  "'" ++ s ++ "'"

/-- Python `str` of a list of strings, as the f-string in the
column-not-found message renders `reader.fieldnames`. -/
def pyListRepr (l : List String) : String :=
  "[" ++ String.intercalate ", " (l.map pyStrRepr) ++ "]"

/-- CONFIG: `QUERY_CMD = "nslookup"`. -/
def QUERY_CMD : String := "nslookup"

/-- CONFIG: `NSLOOKUP_TYPE = "-type=TXT"`. -/
def NSLOOKUP_TYPE : String := "-type=TXT"

/-- CONFIG: `DIG_TYPE = "TXT"`. -/
def DIG_TYPE : String := "TXT"

/-- CONFIG: `TIMEOUT = 6` seconds per query. -/
def TIMEOUT : Nat := 6

/-- CONFIG: `MAX_WORKERS = 12` parallel threads. -/
def MAX_WORKERS : Nat := 12

/-- `make_nslookup_cmd(host)`: `.ok none` is Python's `return None` for an
empty stripped host, `.error` is the `raise ValueError` branch. -/
def make_nslookup_cmd (host : String) : Except String (Option (List String)) :=
  let host := pyStrip host
  if host = "" then
    .ok none
  else if QUERY_CMD = "nslookup" then
    if NSLOOKUP_TYPE ≠ "" then
      .ok (some ["nslookup", NSLOOKUP_TYPE, host])
    else
      .ok (some ["nslookup", host])
  else if QUERY_CMD = "dig" then
    .ok (some ["dig", "+short", "TXT", host])
  else
    .error "QUERY_CMD must be 'nslookup' or 'dig'"

/-- What the external process invocation in `run_query` does: completes with
a return code, stdout and stderr; exceeds the timeout; or raises some other
exception with message `msg`. -/
inductive ProcOutcome where
  | success (returncode : Int) (stdout stderr : String)
  | timeout
  | exc (msg : String)
  deriving DecidableEq

/-- `run_query(host)` given the subprocess outcome. Returns the
`(host, status, output)` triple; `.error` models an exception escaping
`run_query` (only `make_nslookup_cmd` runs outside its `try`). -/
def run_query (host : String) (outcome : ProcOutcome) :
    Except String (String × String × String) :=
  match make_nslookup_cmd host with
  | .error e => .error e
  | .ok none => .ok (host, "EMPTY_HOSTNAME", "")
  | .ok (some _cmd) =>
    match outcome with
    | .success rc stdout stderr =>
        .ok (host, "OK",
          "RETURN_CODE=" ++ toString rc ++ "\nSTDOUT:\n" ++ pyStrip stdout
            ++ "\nSTDERR:\n" ++ pyStrip stderr)
    | .timeout =>
        .ok (host, "OK", "ERROR: timeout after " ++ toString TIMEOUT ++ "s")
    | .exc msg =>
        .ok (host, "OK", "ERROR: " ++ msg)

/-- `write_header(outfh, csv_file, column, total)`: the text it writes. The
timestamp `datetime.utcnow().isoformat()` is an oracle parameter. -/
def write_header (csv_file column : String) (total : Nat) (timestamp : String) : String :=
  "# csv_nslookup.py results\n"
    ++ "# source CSV: " ++ csv_file ++ "\n"
    ++ "# column: " ++ column ++ "\n"
    ++ "# date: " ++ timestamp ++ "Z\n"
    ++ "# total hosts: " ++ toString total ++ "\n\n"

/-- The loader loop of `main`: the trimmed value of the column for each row,
appended when non-empty. -/
def loadHosts (rows : List Row) (column_name : String) : List String :=
  rows.filterMap (fun row =>
    let value := pyStrip (rowGet row column_name)
    if value = "" then none else some value)

/-- The number of rows whose trimmed value in the column is non-empty. -/
def countNonEmpty (rows : List Row) (column_name : String) : Nat :=
  (rows.filter (fun row => pyStrip (rowGet row column_name) != "")).length

/-- The body of `main`'s collection loop for one completed future:
`fut.result()` unpacked on success, or the `except` branch giving status
`"EXC"` with the exception text. -/
def processResult (host : String) (outcome : ProcOutcome) : String × String × String :=
  match run_query host outcome with
  | .ok r => r
  | .error e => (host, "EXC", "ERROR: " ++ e)

/-- The three writes for one result: the delimiter line, the output, the
blank separator. -/
def renderBlock (hostname output : String) : String :=
  "--- " ++ hostname ++ " ---\n" ++ output ++ "\n\n"

/-- The block written for task index `i` of the submitted host list. -/
def renderOne (hosts : List String) (outcomes : Nat → ProcOutcome) (i : Nat) : String :=
  let host := hosts.getD i ""
  let r := processResult host (outcomes i)
  renderBlock r.1 r.2.2

/-- All per-host blocks, in completion order `order` (the order in which
`as_completed` yields the futures). -/
def resultBlocks (hosts : List String) (outcomes : Nat → ProcOutcome)
    (order : List Nat) : List String :=
  order.map (renderOne hosts outcomes)

/-- The hostname written in each block's delimiter line, in completion
order. -/
def blockHosts (hosts : List String) (outcomes : Nat → ProcOutcome)
    (order : List Nat) : List String :=
  order.map (fun i => (processResult (hosts.getD i "") (outcomes i)).1)

/-- The observable effect of `main`: which exit path it took, what it
printed, and the output file text when it wrote one. -/
inductive MainResult where
  | columnNotFound (printed : String)
  | noHosts (printed : String)
  | done (printed : String) (fileContent : String)

/-- `main(csv_path, column_name, out_path)` as a function of the parsed CSV
and the environment oracles. `csv_name` is `csv_path.name`. -/
def main (csv : CSVData) (column_name csv_name out_path timestamp : String)
    (outcomes : Nat → ProcOutcome) (order : List Nat) : MainResult :=
  if column_name ∈ csv.fieldnames then
    let hosts := loadHosts csv.rows column_name
    if hosts = [] then
      .noHosts "No hosts found in that column."
    else
      .done ("Done. Results saved to " ++ out_path)
        (write_header csv_name column_name hosts.length timestamp
          ++ String.join (resultBlocks hosts outcomes order))
  else
    .columnNotFound ("ERROR: column '" ++ column_name ++ "' not found. Available columns: "
      ++ pyListRepr csv.fieldnames)

/-- The process exit status of each `main` path (`sys.exit(2)` on a missing
column; the other paths return and the process exits 0). -/
def mainExitCode : MainResult → Nat
  | .columnNotFound _ => 2
  | .noHosts _ => 0
  | .done _ _ => 0

/-- The output file's state after a run: `prev` is its state before
(`none` = the file does not exist). Only the `done` path opens the file
(mode `"w"`, truncating); the other paths never touch it. -/
def runFile (prev : Option String) (csv : CSVData)
    (column_name csv_name out_path timestamp : String)
    (outcomes : Nat → ProcOutcome) (order : List Nat) : Option String :=
  match main csv column_name csv_name out_path timestamp outcomes order with
  | .done _ content => some content
  | _ => prev

/-- Substring containment on strings (for checking what a report block's
text does and does not contain). -/
def containsStr (s pat : String) : Bool :=
  decide (pat.data <:+: s.data)

/-! ### Helper lemmas about `pyStrip` and the loader -/

/-- If every character surviving a `dropWhile p` satisfies `p`, nothing
survives. -/
lemma dropWhile_eq_nil_of_all {p : Char → Bool} (x : List Char)
    (h : ∀ c ∈ x.dropWhile p, p c) : x.dropWhile p = [] := by
  induction x with
  | nil => rfl
  | cons a t ih =>
    by_cases hpa : p a
    · rw [List.dropWhile_cons, if_pos hpa] at h ⊢
      exact ih h
    · rw [List.dropWhile_cons, if_neg hpa] at h
      exact absurd (h a (List.mem_cons_self a t)) hpa

/-- Stripping a non-blank string again cannot make it blank: `pyStrip` of a
non-empty strip result is still non-empty. -/
lemma pyStrip_pyStrip_ne {s : String} (h : pyStrip s ≠ "") :
    pyStrip (pyStrip s) ≠ "" := by
  intro hcon
  apply h
  set p := Char.isWhitespace
  have hdata : (((((pyStrip s).data.dropWhile p).reverse).dropWhile p)).reverse = [] :=
    congrArg String.data hcon
  rw [List.reverse_eq_nil_iff, List.dropWhile_eq_nil_iff] at hdata
  have hall : ∀ c ∈ (pyStrip s).data.dropWhile p, p c := by
    intro c hc
    exact hdata c (List.mem_reverse.mpr hc)
  have hnil : (pyStrip s).data.dropWhile p = [] := dropWhile_eq_nil_of_all _ hall
  rw [List.dropWhile_eq_nil_iff] at hnil
  have hall2 : ∀ c ∈ ((s.data.dropWhile p).reverse.dropWhile p), p c := by
    intro c hc
    exact hnil c (List.mem_reverse.mpr hc)
  have hnil2 : (s.data.dropWhile p).reverse.dropWhile p = [] :=
    dropWhile_eq_nil_of_all _ hall2
  apply String.ext
  show ((s.data.dropWhile p).reverse.dropWhile p).reverse = ([] : List Char)
  rw [hnil2, List.reverse_nil]

/-- Membership in the loaded host list: exactly the non-empty trimmed values
of the column across the rows. -/
lemma mem_loadHosts {rows : List Row} {col h : String} :
    h ∈ loadHosts rows col ↔ ∃ r ∈ rows, pyStrip (rowGet r col) = h ∧ h ≠ "" := by
  unfold loadHosts
  rw [List.mem_filterMap]
  constructor
  · rintro ⟨r, hr, hf⟩
    by_cases hv : pyStrip (rowGet r col) = ""
    · simp [hv] at hf
    · simp only [hv, if_neg, ite_false, Option.some.injEq] at hf
      exact ⟨r, hr, hf, hf ▸ hv⟩
  · rintro ⟨r, hr, hf, hne⟩
    refine ⟨r, hr, ?_⟩
    simp only [hf, if_neg hne]

/-- A loaded host still strips to something non-empty (so
`make_nslookup_cmd` never returns `None` on it). -/
lemma loadHosts_strip_ne {rows : List Row} {col h : String}
    (hm : h ∈ loadHosts rows col) : pyStrip h ≠ "" := by
  obtain ⟨r, _, hf, hne⟩ := mem_loadHosts.mp hm
  have : pyStrip (rowGet r col) ≠ "" := by rw [hf]; exact hne
  have := pyStrip_pyStrip_ne this
  rwa [hf] at this

/-- The loaded host list has one entry per row with a non-empty trimmed
value (duplicates kept). -/
lemma loadHosts_length (rows : List Row) (col : String) :
    (loadHosts rows col).length = countNonEmpty rows col := by
  induction rows with
  | nil => rfl
  | cons r t ih =>
    unfold loadHosts countNonEmpty at ih ⊢
    by_cases hv : pyStrip (rowGet r col) = "" <;>
      simp [List.filterMap_cons, List.filter_cons, hv, ih]

/-! ### Helper lemmas about `make_nslookup_cmd`, `run_query`, blocks -/

/-- With the configured `QUERY_CMD = "nslookup"` and a non-blank host,
`make_nslookup_cmd` builds the nslookup argument vector. -/
lemma make_cmd_of_stripped {host : String} (hne : pyStrip host ≠ "") :
    make_nslookup_cmd host = .ok (some ["nslookup", "-type=TXT", pyStrip host]) := by
  unfold make_nslookup_cmd QUERY_CMD NSLOOKUP_TYPE
  simp [hne]

/-- `run_query` on a non-blank host: always `.ok` with status `"OK"`,
whatever the subprocess outcome. -/
lemma run_query_ok {host : String} (hne : pyStrip host ≠ "") (oc : ProcOutcome) :
    run_query host oc = .ok (host, "OK",
      match oc with
      | .success rc stdout stderr =>
          "RETURN_CODE=" ++ toString rc ++ "\nSTDOUT:\n" ++ pyStrip stdout
            ++ "\nSTDERR:\n" ++ pyStrip stderr
      | .timeout => "ERROR: timeout after 6s"
      | .exc msg => "ERROR: " ++ msg) := by
  unfold run_query
  rw [make_cmd_of_stripped hne]
  cases oc <;> rfl

/-- The reporter always writes the submitted host's name in the delimiter,
on every path (normal result or the `except` branch). -/
lemma processResult_fst (host : String) (oc : ProcOutcome) :
    (processResult host oc).1 = host := by
  unfold processResult run_query
  cases make_nslookup_cmd host with
  | error e => rfl
  | ok o =>
    cases o with
    | none => rfl
    | some c => cases oc <;> rfl

/-- On a non-blank host the collected status is `"OK"`, whatever the
subprocess outcome. -/
lemma processResult_status_ok {host : String} (hne : pyStrip host ≠ "")
    (oc : ProcOutcome) : (processResult host oc).2.1 = "OK" := by
  unfold processResult
  rw [run_query_ok hne]

/-- Reading every position of a list back out of it gives the list. -/
lemma map_getD_range {α : Type} (l : List α) (d : α) :
    (List.range l.length).map (fun i => l.getD i d) = l := by
  induction l with
  | nil => rfl
  | cons a t ih =>
    rw [List.length_cons, List.range_succ_eq_map, List.map_cons, List.map_map]
    have h2 : ((fun i => (a :: t).getD i d) ∘ Nat.succ) = fun i => t.getD i d := by
      funext i
      exact List.getD_cons_succ
    simp only [h2, ih, List.getD_cons_zero]

/-- The delimiter hostnames are a permutation of the submitted host list
whenever the completion order is a permutation of the task indices. -/
lemma blockHosts_perm (hosts : List String) (outcomes : Nat → ProcOutcome)
    (order : List Nat) (hperm : order.Perm (List.range hosts.length)) :
    (blockHosts hosts outcomes order).Perm hosts := by
  unfold blockHosts
  simp only [processResult_fst]
  have h := hperm.map (fun i => hosts.getD i "")
  rwa [map_getD_range] at h

/-- Zipping two pointwise maps of the same index list recombines them. -/
lemma zipWith_map_same {α β γ δ : Type} (f : β → γ → δ) (g : α → β) (k : α → γ) :
    ∀ l : List α, List.zipWith f (l.map g) (l.map k) = l.map (fun i => f (g i) (k i)) := by
  intro l
  induction l with
  | nil => rfl
  | cons a t ih => simp [ih]

/-! ### Concrete sample inputs (witness data) -/

/-- The spec's worked example: header `CN,Issuer`, rows
`(a.example.com, X)`, `( , Y)`, `(b.example.com, Z)`. -/
def sampleCsv : CSVData :=
  ⟨["CN", "Issuer"],
   [[("CN", " a.example.com "), ("Issuer", "X")],
    [("CN", " "), ("Issuer", "Y")],
    [("CN", "b.example.com"), ("Issuer", "Z")]]⟩

/-- A sample environment: every query completes with return code 0. -/
def sampleOutcomes : Nat → ProcOutcome :=
  fun _ => .success 0 "93.184.216.34" ""

/-- A sample environment whose task 0 raises an exception. -/
def excOutcomes : Nat → ProcOutcome :=
  fun i => if i = 0 then .exc "spawn failed" else .success 0 "93.184.216.34" ""

/-! ### The claims -/

/-- C1: for every CSV input whose header contains the named column and which
has at least one non-empty trimmed value in that column, the run writes the
report file and the number of per-host report blocks equals the number of
non-empty trimmed values in that column, with duplicate values counted
individually. -/
theorem C1_report_block_count (csv : CSVData) (col csv_name outp ts : String)
    (outcomes : Nat → ProcOutcome) (order : List Nat)
    (hcol : col ∈ csv.fieldnames)
    (hne : loadHosts csv.rows col ≠ [])
    (hperm : order.Perm (List.range (loadHosts csv.rows col).length)) :
    main csv col csv_name outp ts outcomes order =
      .done ("Done. Results saved to " ++ outp)
        (write_header csv_name col (loadHosts csv.rows col).length ts
          ++ String.join (resultBlocks (loadHosts csv.rows col) outcomes order)) ∧
    (resultBlocks (loadHosts csv.rows col) outcomes order).length
      = countNonEmpty csv.rows col := by
  constructor
  · unfold main
    simp only [if_pos hcol]
    simp only [if_neg hne]
  · unfold resultBlocks
    rw [List.length_map, hperm.length_eq, List.length_range, loadHosts_length]

/-- Witness for C1 at the spec's worked example (completion order reversed). -/
theorem C1_report_block_count_witness :
    main sampleCsv "CN" "crtsh.csv" "out.txt" "2026-10-12T00:00:00"
        sampleOutcomes [1, 0] =
      .done ("Done. Results saved to " ++ "out.txt")
        (write_header "crtsh.csv" "CN" (loadHosts sampleCsv.rows "CN").length "2026-10-12T00:00:00"
          ++ String.join (resultBlocks (loadHosts sampleCsv.rows "CN") sampleOutcomes [1, 0])) ∧
    (resultBlocks (loadHosts sampleCsv.rows "CN") sampleOutcomes [1, 0]).length
      = countNonEmpty sampleCsv.rows "CN" :=
  C1_report_block_count sampleCsv "CN" "crtsh.csv" "out.txt" "2026-10-12T00:00:00"
    sampleOutcomes [1, 0] (by decide) (by decide) (by decide)

/-- C2: for a CSV whose header row does not contain the named column, the
program prints an error message listing the available columns, exits with
status code 2, and performs no writes to the output path. -/
theorem C2_column_not_found (csv : CSVData) (col csv_name outp ts : String)
    (outcomes : Nat → ProcOutcome) (order : List Nat)
    (hcol : col ∉ csv.fieldnames) :
    main csv col csv_name outp ts outcomes order =
      .columnNotFound ("ERROR: column '" ++ col ++ "' not found. Available columns: "
        ++ pyListRepr csv.fieldnames) ∧
    mainExitCode (main csv col csv_name outp ts outcomes order) = 2 ∧
    ∀ prev, runFile prev csv col csv_name outp ts outcomes order = prev := by
  have hm : main csv col csv_name outp ts outcomes order =
      .columnNotFound ("ERROR: column '" ++ col ++ "' not found. Available columns: "
        ++ pyListRepr csv.fieldnames) := by
    unfold main
    rw [if_neg hcol]
  refine ⟨hm, ?_, ?_⟩
  · rw [hm]
    rfl
  · intro prev
    unfold runFile
    rw [hm]

/-- Witness for C2: asking the sample CSV for a column it does not have. -/
theorem C2_column_not_found_witness :
    main sampleCsv "Hostname" "crtsh.csv" "out.txt" "2026-10-12T00:00:00"
        sampleOutcomes [1, 0] =
      .columnNotFound ("ERROR: column '" ++ "Hostname" ++ "' not found. Available columns: "
        ++ pyListRepr sampleCsv.fieldnames) ∧
    mainExitCode (main sampleCsv "Hostname" "crtsh.csv" "out.txt" "2026-10-12T00:00:00"
        sampleOutcomes [1, 0]) = 2 ∧
    ∀ prev, runFile prev sampleCsv "Hostname" "crtsh.csv" "out.txt" "2026-10-12T00:00:00"
        sampleOutcomes [1, 0] = prev :=
  C2_column_not_found sampleCsv "Hostname" "crtsh.csv" "out.txt" "2026-10-12T00:00:00"
    sampleOutcomes [1, 0] (by decide)

/-- C3 counterexample: a CSV holding a row whose `CN` value trims to empty.
The run writes a report, yet no `EMPTY_HOSTNAME` (nor `EmptyHostname`)
status text appears anywhere in the output file, and only one block is
written for the two rows: nothing at all is recorded for the empty row. -/
theorem C3_counterexample :
    pyStrip (rowGet [("CN", " ")] "CN") = "" ∧
    (runFile none ⟨["CN"], [[("CN", " ")], [("CN", "b.example.com")]]⟩ "CN" "crtsh.csv"
        "out.txt" "2026-10-12T00:00:00" sampleOutcomes [0]).isSome = true ∧
    containsStr ((runFile none ⟨["CN"], [[("CN", " ")], [("CN", "b.example.com")]]⟩ "CN"
        "crtsh.csv" "out.txt" "2026-10-12T00:00:00" sampleOutcomes [0]).getD "")
      "EMPTY_HOSTNAME" = false ∧
    containsStr ((runFile none ⟨["CN"], [[("CN", " ")], [("CN", "b.example.com")]]⟩ "CN"
        "crtsh.csv" "out.txt" "2026-10-12T00:00:00" sampleOutcomes [0]).getD "")
      "EmptyHostname" = false ∧
    (resultBlocks (loadHosts [[("CN", " ")], [("CN", "b.example.com")]] "CN")
        sampleOutcomes [0]).length = 1 :=
  ⟨rfl, rfl, by decide, by decide, rfl⟩

/-- C3 (amended): a row whose value in the named column is empty after
trimming is silently skipped at load time — it contributes no host and no
report block, and no EmptyHostname status is recorded in the output:
every loaded host's collected status is `"OK"` under every outcome. -/
theorem C3_empty_rows_skipped (rows₁ rows₂ : List Row) (r : Row) (col : String)
    (hempty : pyStrip (rowGet r col) = "") :
    loadHosts (rows₁ ++ r :: rows₂) col = loadHosts (rows₁ ++ rows₂) col ∧
    ∀ h ∈ loadHosts (rows₁ ++ r :: rows₂) col, ∀ oc : ProcOutcome,
      (processResult h oc).2.1 = "OK" := by
  constructor
  · unfold loadHosts
    rw [List.filterMap_append, List.filterMap_append, List.filterMap_cons]
    simp only [hempty, if_pos]
  · intro h hm oc
    exact processResult_status_ok (loadHosts_strip_ne hm) oc

/-- Witness for C3 (amended) at a concrete empty-valued row. -/
theorem C3_empty_rows_skipped_witness :
    loadHosts ([[("CN", "b.example.com")]] ++ [("CN", "  ")] :: [[("CN", "c.example.com")]]) "CN"
      = loadHosts ([[("CN", "b.example.com")]] ++ [[("CN", "c.example.com")]]) "CN" ∧
    ∀ h ∈ loadHosts ([[("CN", "b.example.com")]] ++ [("CN", "  ")] :: [[("CN", "c.example.com")]]) "CN",
      ∀ oc : ProcOutcome, (processResult h oc).2.1 = "OK" :=
  C3_empty_rows_skipped [[("CN", "b.example.com")]] [[("CN", "c.example.com")]]
    [("CN", "  ")] "CN" (by decide)

/-- C4: a host whose query exceeds the timeout gets exactly the timeout
marker as its block's output — the marker mentions the timeout and carries
no RETURN_CODE, STDOUT or STDERR text from the abandoned process. -/
theorem C4_timeout_marker (host : String) (hne : pyStrip host ≠ "") :
    run_query host .timeout = .ok (host, "OK", "ERROR: timeout after 6s") ∧
    (processResult host .timeout).2.2 = "ERROR: timeout after 6s" ∧
    containsStr "ERROR: timeout after 6s" "timeout" = true ∧
    containsStr "ERROR: timeout after 6s" "RETURN_CODE" = false ∧
    containsStr "ERROR: timeout after 6s" "STDOUT" = false ∧
    containsStr "ERROR: timeout after 6s" "STDERR" = false := by
  have h1 := run_query_ok hne ProcOutcome.timeout
  refine ⟨h1, ?_, by decide, by decide, by decide, by decide⟩
  unfold processResult
  rw [h1]

/-- Witness for C4 at a concrete host. -/
theorem C4_timeout_marker_witness :
    run_query "a.example.com" .timeout = .ok ("a.example.com", "OK", "ERROR: timeout after 6s") ∧
    (processResult "a.example.com" .timeout).2.2 = "ERROR: timeout after 6s" ∧
    containsStr "ERROR: timeout after 6s" "timeout" = true ∧
    containsStr "ERROR: timeout after 6s" "RETURN_CODE" = false ∧
    containsStr "ERROR: timeout after 6s" "STDOUT" = false ∧
    containsStr "ERROR: timeout after 6s" "STDERR" = false :=
  C4_timeout_marker "a.example.com" (by decide)

/-- C5: an unexpected failure during one host's query is caught and
surfaced as error text in that host's block only: the run still completes,
writes the report, produces one block per submitted host, and the failing
host's block body is exactly the error text. -/
theorem C5_exception_isolated (csv : CSVData) (col csv_name outp ts : String)
    (outcomes : Nat → ProcOutcome) (order : List Nat)
    (hcol : col ∈ csv.fieldnames) (hne : loadHosts csv.rows col ≠ [])
    (hperm : order.Perm (List.range (loadHosts csv.rows col).length))
    (i : Nat) (hi : i ∈ order) (msg : String) (hoc : outcomes i = .exc msg) :
    main csv col csv_name outp ts outcomes order =
      .done ("Done. Results saved to " ++ outp)
        (write_header csv_name col (loadHosts csv.rows col).length ts
          ++ String.join (resultBlocks (loadHosts csv.rows col) outcomes order)) ∧
    (resultBlocks (loadHosts csv.rows col) outcomes order).length
      = (loadHosts csv.rows col).length ∧
    renderOne (loadHosts csv.rows col) outcomes i
      = renderBlock ((loadHosts csv.rows col).getD i "") ("ERROR: " ++ msg) := by
  have hilt : i < (loadHosts csv.rows col).length := by
    have h := hperm.mem_iff.mp hi
    rwa [List.mem_range] at h
  have hmem : (loadHosts csv.rows col).getD i "" ∈ loadHosts csv.rows col := by
    rw [List.getD_eq_getElem _ _ hilt]
    exact List.getElem_mem hilt
  have hstrip := loadHosts_strip_ne hmem
  refine ⟨?_, ?_, ?_⟩
  · unfold main
    simp only [if_pos hcol]
    simp only [if_neg hne]
  · unfold resultBlocks
    rw [List.length_map, hperm.length_eq, List.length_range]
  · have hres : processResult ((loadHosts csv.rows col).getD i "") (outcomes i)
        = ((loadHosts csv.rows col).getD i "", "OK", "ERROR: " ++ msg) := by
      unfold processResult
      rw [hoc, run_query_ok hstrip]
    simp only [renderOne, hres]

/-- Witness for C5: task 0 of the sample run raises; its block carries the
error text and both blocks are still produced. -/
theorem C5_exception_isolated_witness :
    main sampleCsv "CN" "crtsh.csv" "out.txt" "2026-10-12T00:00:00" excOutcomes [1, 0] =
      .done ("Done. Results saved to " ++ "out.txt")
        (write_header "crtsh.csv" "CN" (loadHosts sampleCsv.rows "CN").length "2026-10-12T00:00:00"
          ++ String.join (resultBlocks (loadHosts sampleCsv.rows "CN") excOutcomes [1, 0])) ∧
    (resultBlocks (loadHosts sampleCsv.rows "CN") excOutcomes [1, 0]).length
      = (loadHosts sampleCsv.rows "CN").length ∧
    renderOne (loadHosts sampleCsv.rows "CN") excOutcomes 0
      = renderBlock ((loadHosts sampleCsv.rows "CN").getD 0 "") ("ERROR: " ++ "spawn failed") :=
  C5_exception_isolated sampleCsv "CN" "crtsh.csv" "out.txt" "2026-10-12T00:00:00"
    excOutcomes [1, 0] (by decide) (by decide) (by decide) 0 (by decide) "spawn failed" (by decide)

/-- C6: the output file is opened with truncation — whatever its previous
state (absent, or holding a first run's report), after a run with a
non-empty host list it holds exactly this run's header (with this run's
host count) and this run's blocks. -/
theorem C6_overwrite_not_append (csv : CSVData) (col csv_name outp ts : String)
    (outcomes : Nat → ProcOutcome) (order : List Nat)
    (hcol : col ∈ csv.fieldnames) (hne : loadHosts csv.rows col ≠ [])
    (prev : Option String) :
    runFile prev csv col csv_name outp ts outcomes order =
      some (write_header csv_name col (loadHosts csv.rows col).length ts
        ++ String.join (resultBlocks (loadHosts csv.rows col) outcomes order)) := by
  unfold runFile main
  simp only [if_pos hcol]
  simp only [if_neg hne]

/-- Witness for C6: a second run over a file already holding a three-host
report replaces it with the sample run's two-host report. -/
theorem C6_overwrite_not_append_witness :
    runFile (some "# csv_nslookup.py results\n# total hosts: 3\n\nstale")
        sampleCsv "CN" "crtsh.csv" "out.txt" "2026-10-12T00:00:00" sampleOutcomes [0, 1] =
      some (write_header "crtsh.csv" "CN" (loadHosts sampleCsv.rows "CN").length "2026-10-12T00:00:00"
        ++ String.join (resultBlocks (loadHosts sampleCsv.rows "CN") sampleOutcomes [0, 1])) :=
  C6_overwrite_not_append sampleCsv "CN" "crtsh.csv" "out.txt" "2026-10-12T00:00:00"
    sampleOutcomes [0, 1] (by decide) (by decide)
    (some "# csv_nslookup.py results\n# total hosts: 3\n\nstale")

/-- C7: the report text is one header followed by the result blocks: the
header is written exactly once, before any block, and carries the source
CSV name, the column name, the UTC timestamp and the total host count;
everything after it consists solely of per-host blocks. -/
theorem C7_header_once_before_blocks (csv : CSVData) (col csv_name outp ts : String)
    (outcomes : Nat → ProcOutcome) (order : List Nat)
    (hcol : col ∈ csv.fieldnames) (hne : loadHosts csv.rows col ≠ []) :
    main csv col csv_name outp ts outcomes order =
      .done ("Done. Results saved to " ++ outp)
        (write_header csv_name col (loadHosts csv.rows col).length ts
          ++ String.join (resultBlocks (loadHosts csv.rows col) outcomes order)) ∧
    write_header csv_name col (loadHosts csv.rows col).length ts =
      "# csv_nslookup.py results\n"
        ++ "# source CSV: " ++ csv_name ++ "\n"
        ++ "# column: " ++ col ++ "\n"
        ++ "# date: " ++ ts ++ "Z\n"
        ++ "# total hosts: " ++ toString (loadHosts csv.rows col).length ++ "\n\n" ∧
    ∀ b ∈ resultBlocks (loadHosts csv.rows col) outcomes order,
      ∃ hn out, b = renderBlock hn out := by
  refine ⟨?_, rfl, ?_⟩
  · unfold main
    simp only [if_pos hcol]
    simp only [if_neg hne]
  · intro b hb
    unfold resultBlocks at hb
    rw [List.mem_map] at hb
    obtain ⟨i, _, rfl⟩ := hb
    exact ⟨_, _, rfl⟩

/-- Witness for C7 at the sample run. -/
theorem C7_header_once_before_blocks_witness :
    main sampleCsv "CN" "crtsh.csv" "out.txt" "2026-10-12T00:00:00" sampleOutcomes [0, 1] =
      .done ("Done. Results saved to " ++ "out.txt")
        (write_header "crtsh.csv" "CN" (loadHosts sampleCsv.rows "CN").length "2026-10-12T00:00:00"
          ++ String.join (resultBlocks (loadHosts sampleCsv.rows "CN") sampleOutcomes [0, 1])) ∧
    write_header "crtsh.csv" "CN" (loadHosts sampleCsv.rows "CN").length "2026-10-12T00:00:00" =
      "# csv_nslookup.py results\n"
        ++ "# source CSV: " ++ "crtsh.csv" ++ "\n"
        ++ "# column: " ++ "CN" ++ "\n"
        ++ "# date: " ++ "2026-10-12T00:00:00" ++ "Z\n"
        ++ "# total hosts: " ++ toString (loadHosts sampleCsv.rows "CN").length ++ "\n\n" ∧
    ∀ b ∈ resultBlocks (loadHosts sampleCsv.rows "CN") sampleOutcomes [0, 1],
      ∃ hn out, b = renderBlock hn out :=
  C7_header_once_before_blocks sampleCsv "CN" "crtsh.csv" "out.txt" "2026-10-12T00:00:00"
    sampleOutcomes [0, 1] (by decide) (by decide)

/-- C8: whatever the completion order (any permutation of the task
indices), the hostnames in the block delimiters are exactly the non-empty
trimmed values of the input column — each block is the delimiter for its
host zipped with its output. -/
theorem C8_host_set_order_invariant (csv : CSVData) (col : String)
    (outcomes : Nat → ProcOutcome) (order : List Nat)
    (hperm : order.Perm (List.range (loadHosts csv.rows col).length)) :
    (∀ h, h ∈ blockHosts (loadHosts csv.rows col) outcomes order ↔
        ∃ r ∈ csv.rows, pyStrip (rowGet r col) = h ∧ h ≠ "") ∧
    resultBlocks (loadHosts csv.rows col) outcomes order =
      List.zipWith renderBlock (blockHosts (loadHosts csv.rows col) outcomes order)
        (order.map fun i =>
          (processResult ((loadHosts csv.rows col).getD i "") (outcomes i)).2.2) := by
  constructor
  · intro h
    rw [(blockHosts_perm _ _ _ hperm).mem_iff, mem_loadHosts]
  · unfold resultBlocks blockHosts renderOne
    rw [zipWith_map_same]

/-- Witness for C8 with a reversed completion order. -/
theorem C8_host_set_order_invariant_witness :
    (∀ h, h ∈ blockHosts (loadHosts sampleCsv.rows "CN") sampleOutcomes [1, 0] ↔
        ∃ r ∈ sampleCsv.rows, pyStrip (rowGet r "CN") = h ∧ h ≠ "") ∧
    resultBlocks (loadHosts sampleCsv.rows "CN") sampleOutcomes [1, 0] =
      List.zipWith renderBlock (blockHosts (loadHosts sampleCsv.rows "CN") sampleOutcomes [1, 0])
        (List.map (fun i =>
          (processResult ((loadHosts sampleCsv.rows "CN").getD i "") (sampleOutcomes i)).2.2)
          [1, 0]) :=
  C8_host_set_order_invariant sampleCsv "CN" sampleOutcomes [1, 0] (by decide)

/-- C9: when the column exists but holds no non-empty trimmed value, the
program prints the no-hosts message and returns with exit status 0, and
the output path is neither created nor modified: not even a header is
written. -/
theorem C9_no_hosts_no_file (csv : CSVData) (col csv_name outp ts : String)
    (outcomes : Nat → ProcOutcome) (order : List Nat)
    (hcol : col ∈ csv.fieldnames) (hempty : loadHosts csv.rows col = []) :
    main csv col csv_name outp ts outcomes order =
      .noHosts "No hosts found in that column." ∧
    mainExitCode (main csv col csv_name outp ts outcomes order) = 0 ∧
    ∀ prev, runFile prev csv col csv_name outp ts outcomes order = prev := by
  have hm : main csv col csv_name outp ts outcomes order =
      .noHosts "No hosts found in that column." := by
    unfold main
    simp only [if_pos hcol]
    simp only [if_pos hempty]
  refine ⟨hm, ?_, ?_⟩
  · rw [hm]
    rfl
  · intro prev
    unfold runFile
    rw [hm]

/-- Witness for C9: a CSV whose only `CN` value is blank. -/
theorem C9_no_hosts_no_file_witness :
    main ⟨["CN"], [[("CN", "  ")]]⟩ "CN" "crtsh.csv" "out.txt" "2026-10-12T00:00:00"
        sampleOutcomes [] =
      .noHosts "No hosts found in that column." ∧
    mainExitCode (main ⟨["CN"], [[("CN", "  ")]]⟩ "CN" "crtsh.csv" "out.txt"
        "2026-10-12T00:00:00" sampleOutcomes []) = 0 ∧
    ∀ prev, runFile prev ⟨["CN"], [[("CN", "  ")]]⟩ "CN" "crtsh.csv" "out.txt"
        "2026-10-12T00:00:00" sampleOutcomes [] = prev :=
  C9_no_hosts_no_file ⟨["CN"], [[("CN", "  ")]]⟩ "CN" "crtsh.csv" "out.txt"
    "2026-10-12T00:00:00" sampleOutcomes [] (by decide) (by decide)

/-- C10: every host the loader produced makes `run_query` return `.ok` with
status `"OK"` under every subprocess outcome — the `EMPTY_HOSTNAME` value
and the reporter's `"EXC"` branch are unreachable for loaded hosts; a
timeout or a caught exception differs only in the output text. -/
theorem C10_loaded_hosts_status_ok (rows : List Row) (col h : String)
    (hmem : h ∈ loadHosts rows col) (oc : ProcOutcome) :
    (∃ out, run_query h oc = .ok (h, "OK", out)) ∧
    (processResult h oc).2.1 = "OK" ∧
    (processResult h oc).2.1 ≠ "EMPTY_HOSTNAME" ∧
    (processResult h oc).2.1 ≠ "EXC" := by
  have hne := loadHosts_strip_ne hmem
  have hok := processResult_status_ok hne oc
  refine ⟨⟨_, run_query_ok hne oc⟩, hok, ?_, ?_⟩ <;> rw [hok] <;> decide

/-- Witness for C10 at a loaded host under a timeout outcome. -/
theorem C10_loaded_hosts_status_ok_witness :
    (∃ out, run_query "a.example.com" ProcOutcome.timeout
        = .ok ("a.example.com", "OK", out)) ∧
    (processResult "a.example.com" ProcOutcome.timeout).2.1 = "OK" ∧
    (processResult "a.example.com" ProcOutcome.timeout).2.1 ≠ "EMPTY_HOSTNAME" ∧
    (processResult "a.example.com" ProcOutcome.timeout).2.1 ≠ "EXC" :=
  C10_loaded_hosts_status_ok sampleCsv.rows "CN" "a.example.com" (by decide)
    ProcOutcome.timeout

end Crtsh
